import Mathlib

/-!
# Verification of the "Quick Binary Reload" IDA plugin

Shallow embedding of `src/reload_binary_plugin.py` (class `ReloadBinaryHandler`,
method `activate`).  The host runtime (IDA Pro) is modelled as an explicit
environment supplying the values the plugin queries (input-file path, database
path, dialog answer, the running executable's path, `os.path.exists`), together
with failure-injection fields for the two operations that can raise OS errors
(writing the script file, spawning the child process).  `activate` is then a
pure function from that environment to an outcome plus the observable effects
(user warnings, files written to disk, processes spawned, whether the host
process was terminated).
-/

namespace Reload

/-! ## Python `os.path.splitext`

Faithful to CPython `genericpath._splitext` with `sep = '\\'`, `altsep = '/'`
(the `ntpath` variant; the plugin targets Windows, and on POSIX the only
difference is treating a backslash as a separator).  The extension starts at
the last dot that lies after the last path separator, unless every character
between the separator and that dot is itself a dot (leading-dot file names
such as `.bashrc` have no extension). -/

/-- Index of the last character satisfying `p`, if any (Python `str.rfind`). -/
def rfindIdx (p : Char → Bool) : List Char → Option Nat
  | [] => none
  | c :: cs =>
    match rfindIdx p cs with
    | some i => some (i + 1)
    | none => if p c then some 0 else none

/-- CPython `_splitext` on the character list of a path. -/
def splitextData (l : List Char) : List Char × List Char :=
  let sepIndex : Option Nat := rfindIdx (fun c => c = '/' || c = '\\') l
  let dotIndex : Option Nat := rfindIdx (fun c => c = '.') l
  match dotIndex with
  | none => (l, [])
  | some di =>
    let si : Int := match sepIndex with | none => -1 | some i => (i : Int)
    if si < (di : Int) then
      let fi : Nat := (si + 1).toNat
      if (List.range (di - fi)).any (fun j => l.getD (fi + j) '.' != '.') then
        (l.take di, l.drop di)
      else (l, [])
    else (l, [])

/-- `os.path.splitext(s)[0]`: the path with its extension stripped. -/
def splitextStem (s : String) : String := ⟨(splitextData s.data).1⟩

/-! ## Host environment and observable effects -/

/-- Constant `ida_kernwin.ASKBTN_YES`. -/
def ASKBTN_YES : Int := 1

/-- Constant `subprocess.CREATE_NO_WINDOW`. -/
def CREATE_NO_WINDOW : Nat := 134217728

/-- Python truthiness of an optional string: `None` and `""` are falsy. -/
def truthy : Option String → Bool
  | none => false
  | some s => !s.isEmpty

/-- Everything `activate` reads from the host runtime, plus failure injection
for the two OS calls that can raise inside the inner `try`. -/
structure Env where
  /-- Result of `ida_nalt.get_input_file_path()`. -/
  input_path : Option String
  /-- The host file system, queried through `os.path.exists`. -/
  path_exists : String → Bool
  /-- Result of `ida_kernwin.ask_yn(...)`. -/
  ask_yn_answer : Int
  /-- Result of `ida_loader.get_path(ida_loader.PATH_TYPE_IDB)`. -/
  idb_path : Option String
  /-- Value of `sys.executable`. -/
  ida_exe : String
  /-- Failure injection for writing the script file: `none` means all writes
  succeed; `some k` means an `OSError` is raised once the first `k` lines
  are on disk (the file was opened with mode `w`, so those lines remain). -/
  write_fail_after : Option Nat
  /-- Whether `subprocess.Popen` succeeds. -/
  popen_ok : Bool
  /-- Text `str(e)` of an injected OS exception. -/
  err_msg : String
  /-- Whether `os.name == 'nt'`. -/
  os_name_nt : Bool

/-- A recorded `subprocess.Popen` call. -/
structure Spawn where
  cmd : List String
  shell : Bool
  creationflags : Nat
deriving DecidableEq, Repr

/-- Observable effects of one `activate` run. -/
structure Effects where
  /-- Messages passed to `ida_kernwin.warning`. -/
  warnings : List String
  /-- Files on disk afterwards: path together with the lines it holds. -/
  files_written : List (String × List String)
  spawned : List Spawn
  /-- Whether `ida_pro.qexit(0)` ran. -/
  terminated : Bool
deriving DecidableEq, Repr

def noEffects : Effects :=
  { warnings := [], files_written := [], spawned := [], terminated := false }

/-- The source returns `0` from each error branch and `1` on cancel; on the
success path `ida_pro.qexit(0)` never returns.  The constructors record which
branch produced the return value. -/
inductive ReloadError where
  /-- Branch at line 38: `if not input_path`. -/
  | inputPathUnresolved
  /-- Branch at line 43: `if not os.path.exists(input_path)`. -/
  | inputFileMissing
  /-- Branch at line 119: the `else` of `if idb_path`. -/
  | idbPathUnresolved
  /-- Branch at line 115: the inner `except Exception` around write and Popen. -/
  | scriptCreationFailed
deriving DecidableEq, Repr

inductive Outcome where
  | cancelled
  | err (e : ReloadError)
  | exited
deriving DecidableEq, Repr

/-- The integer `activate` returns to the host (`none` when the process
exited inside the call). -/
def retCode : Outcome → Option Nat
  | .cancelled => some 1
  | .err _ => some 0
  | .exited => none

/-- The spec's error taxonomy: `PathResolutionError` is "host could not
supply a required path", covering both the input-path and the IDB-path
branches. -/
def isPathResolutionError : ReloadError → Bool
  | .inputPathUnresolved => true
  | .idbPathUnresolved => true
  | _ => false

def isMissingFileError : ReloadError → Bool
  | .inputFileMissing => true
  | _ => false

def isScriptGenerationError : ReloadError → Bool
  | .scriptCreationFailed => true
  | _ => false

/-! ## Script generation (lines 77–102 of the source) -/

/-- The fixed list `extensions = ['.id0', '.id1', '.id2', '.nam', '.til', '.i64']`. -/
def extensions : List String := [".id0", ".id1", ".id2", ".nam", ".til", ".i64"]

/-- Deletion command line, `f-string del /F /Q ... 2>nul` of line 87/93. -/
def delLine (base ext : String) : String :=
  "del /F /Q \"" ++ base ++ ext ++ "\" 2>nul"

/-- Relaunch command line of line 99, with the `-A -c` flags. -/
def startLine (exe input : String) : String :=
  "start \"\" \"" ++ exe ++ "\" -A -c \"" ++ input ++ "\""

/-- Self-deletion command line of line 102. -/
def selfDelLine (p : String) : String :=
  "del /F /Q \"" ++ p ++ "\""

/-- Startup delay line of line 80. -/
def timeoutLine : String := "timeout /t 1 /nobreak >nul"

/-- The lines written to the batch file, in the order the source writes them:
echo suppression, delay, existence-guarded deletions for the current IDB
stem, unguarded deletions for the binary's stem when it differs, relaunch,
self-deletion. -/
def scriptLines (fsx : String → Bool)
    (current_idb_base binary_idb_base ida_exe input_path batch_path : String) :
    List String :=
  ["@echo off", timeoutLine]
  ++ (extensions.filter (fun ext => fsx (current_idb_base ++ ext))).map
      (fun ext => delLine current_idb_base ext)
  ++ (if current_idb_base ≠ binary_idb_base then
        extensions.map (fun ext => delLine binary_idb_base ext)
      else [])
  ++ [startLine ida_exe input_path, selfDelLine batch_path]

/-- Stem `current_idb_base = os.path.splitext(idb_path)[0]`. -/
def dbStem (env : Env) : String := splitextStem (env.idb_path.getD "")

/-- Stem `binary_idb_base = os.path.splitext(input_path)[0]`. -/
def binStem (env : Env) : String := splitextStem (env.input_path.getD "")

/-- Script path `batch_path = current_idb_base + "_reload.bat"`. -/
def batchPath (env : Env) : String := dbStem env ++ "_reload.bat"

/-- The full script `activate` generates in environment `env`. -/
def theScript (env : Env) : List String :=
  scriptLines env.path_exists (dbStem env) (binStem env) env.ida_exe
    (env.input_path.getD "") (batchPath env)

/-! ## `ReloadBinaryHandler.activate` (lines 32–129) -/

def activate (env : Env) : Outcome × Effects :=
  if truthy env.input_path = false then
    (.err .inputPathUnresolved,
     { noEffects with warnings := ["Cannot determine the input file path!"] })
  else
    let input_path := env.input_path.getD ""
    if env.path_exists input_path = false then
      (.err .inputFileMissing,
       { noEffects with warnings := ["File not found: " ++ input_path] })
    else if env.ask_yn_answer ≠ ASKBTN_YES then
      (.cancelled, noEffects)
    else if truthy env.idb_path = false then
      (.err .idbPathUnresolved,
       { noEffects with warnings := ["Could not determine IDB path"] })
    else
      let lines := theScript env
      match env.write_fail_after with
      | some k =>
        (.err .scriptCreationFailed,
         { warnings := ["Failed to create reload script: " ++ env.err_msg],
           files_written := [(batchPath env, lines.take k)],
           spawned := [], terminated := false })
      | none =>
        if env.popen_ok then
          (.exited,
           { warnings := [],
             files_written := [(batchPath env, lines)],
             spawned := [{ cmd := [batchPath env], shell := true,
                           creationflags :=
                             if env.os_name_nt then CREATE_NO_WINDOW else 0 }],
             terminated := true })
        else
          (.err .scriptCreationFailed,
           { warnings := ["Failed to create reload script: " ++ env.err_msg],
             files_written := [(batchPath env, lines)],
             spawned := [], terminated := false })

/-! ## Concrete environments used as witnesses and counterexamples -/

/-- A host session where the input path cannot be determined. -/
def envNoInput : Env :=
  { input_path := none, path_exists := fun _ => false, ask_yn_answer := 1,
    idb_path := none, ida_exe := "/opt/ida/ida64", write_fail_after := none,
    popen_ok := true, err_msg := "", os_name_nt := true }

/-- A host session whose input file has been deleted from disk. -/
def envGone : Env :=
  { input_path := some "/tmp/sample.bin", path_exists := fun _ => false,
    ask_yn_answer := 1, idb_path := some "/tmp/sample.i64",
    ida_exe := "/opt/ida/ida64", write_fail_after := none, popen_ok := true,
    err_msg := "", os_name_nt := true }

/-- A healthy session where the user answers "No" to the prompt. -/
def envDecline : Env :=
  { input_path := some "/tmp/sample.bin",
    path_exists := fun s => s == "/tmp/sample.bin", ask_yn_answer := 0,
    idb_path := some "/tmp/sample.i64", ida_exe := "/opt/ida/ida64",
    write_fail_after := none, popen_ok := true, err_msg := "",
    os_name_nt := true }

/-- A session on a freshly opened, never saved binary: no IDB path yet. -/
def envNoIdb : Env :=
  { input_path := some "/tmp/sample.bin",
    path_exists := fun s => s == "/tmp/sample.bin", ask_yn_answer := 1,
    idb_path := none, ida_exe := "/opt/ida/ida64", write_fail_after := none,
    popen_ok := true, err_msg := "", os_name_nt := true }

/-- A healthy session: binary and IDB share the stem `/tmp/sample`, and only
the binary itself exists on disk (no auxiliary database-component files). -/
def envFresh : Env :=
  { input_path := some "/tmp/sample.bin",
    path_exists := fun s => s == "/tmp/sample.bin", ask_yn_answer := 1,
    idb_path := some "/tmp/sample.i64", ida_exe := "/opt/ida/ida64",
    write_fail_after := none, popen_ok := true, err_msg := "",
    os_name_nt := true }

/-- A session whose IDB lives in a different directory than the binary, with
every queried file present on disk. -/
def envTwoStems : Env :=
  { input_path := some "/tmp/sample.bin", path_exists := fun _ => true,
    ask_yn_answer := 1, idb_path := some "/tmp/dbdir/sample.i64",
    ida_exe := "/opt/ida/ida64", write_fail_after := none, popen_ok := true,
    err_msg := "", os_name_nt := true }

/-- Like `envTwoStems`, but the disk fills up after the first line of the
script reaches the file. -/
def envDiskFull : Env :=
  { input_path := some "/tmp/sample.bin", path_exists := fun _ => true,
    ask_yn_answer := 1, idb_path := some "/tmp/dbdir/sample.i64",
    ida_exe := "/opt/ida/ida64", write_fail_after := some 1, popen_ok := true,
    err_msg := "No space left on device", os_name_nt := true }

/-! ## Distinguishing the script's command lines from one another -/

theorem delLine_data (b e : String) :
    (delLine b e).data =
      ("del /F /Q \"" : String).data ++ b.data ++ e.data
        ++ ("\" 2>nul" : String).data := by
  simp [delLine, String.data_append]

theorem selfDelLine_data (p : String) :
    (selfDelLine p).data =
      ("del /F /Q \"" : String).data ++ p.data ++ ("\"" : String).data := by
  simp [selfDelLine, String.data_append]

theorem startLine_data (exe input : String) :
    (startLine exe input).data =
      ("start \"\" \"" : String).data ++ exe.data
        ++ ("\" -A -c \"" : String).data ++ input.data
        ++ ("\"" : String).data := by
  simp [startLine, String.data_append]

theorem ne_of_head (s t : String) (h : s.data.head? ≠ t.data.head?) : s ≠ t :=
  fun he => h (by rw [he])

theorem head_delLine (b e : String) : (delLine b e).data.head? = some 'd' := by
  rw [delLine_data]; rfl

theorem head_startLine (exe input : String) :
    (startLine exe input).data.head? = some 's' := by
  rw [startLine_data]; rfl

theorem echo_ne_delLine (b e : String) : "@echo off" ≠ delLine b e :=
  ne_of_head _ _ (by rw [head_delLine]; intro h; cases h)

theorem timeout_ne_delLine (b e : String) : timeoutLine ≠ delLine b e :=
  ne_of_head _ _ (by rw [head_delLine]; intro h; cases h)

theorem start_ne_delLine (exe input b e : String) :
    startLine exe input ≠ delLine b e :=
  ne_of_head _ _ (by rw [head_startLine, head_delLine]; intro h; cases h)

theorem getLast_delLine (b e : String) :
    (delLine b e).data.getLast? = some 'l' := by
  rw [delLine_data,
    List.getLast?_append_of_ne_nil _
      (show ("\" 2>nul" : String).data ≠ [] by decide)]
  rfl

theorem getLast_selfDelLine (p : String) :
    (selfDelLine p).data.getLast? = some '"' := by
  rw [selfDelLine_data,
    List.getLast?_append_of_ne_nil _
      (show ("\"" : String).data ≠ [] by decide)]
  rfl

theorem selfDel_ne_delLine (p b e : String) : selfDelLine p ≠ delLine b e := by
  intro h
  have hd : (selfDelLine p).data.getLast? = (delLine b e).data.getLast? := by
    rw [h]
  rw [getLast_selfDelLine, getLast_delLine] at hd
  cases hd

theorem ext_data_ne_nil : ∀ e ∈ extensions, e.data ≠ [] := by decide

theorem ext_getLast_inj :
    ∀ e₁ ∈ extensions, ∀ e₂ ∈ extensions,
      e₁.data.getLast? = e₂.data.getLast? → e₁ = e₂ := by decide

/-- Two deletion lines built from extensions of the fixed set agree only when
both the stem and the extension agree. -/
theorem delLine_inj {b₁ e₁ b₂ e₂ : String} (h₁ : e₁ ∈ extensions)
    (h₂ : e₂ ∈ extensions) (h : delLine b₁ e₁ = delLine b₂ e₂) :
    b₁ = b₂ ∧ e₁ = e₂ := by
  have hd := congrArg String.data h
  rw [delLine_data, delLine_data] at hd
  have hd' := List.append_cancel_right hd
  have hlast : e₁.data.getLast? = e₂.data.getLast? := by
    have g₁ := List.getLast?_append_of_ne_nil
      (("del /F /Q \"" : String).data ++ b₁.data) (ext_data_ne_nil e₁ h₁)
    have g₂ := List.getLast?_append_of_ne_nil
      (("del /F /Q \"" : String).data ++ b₂.data) (ext_data_ne_nil e₂ h₂)
    rw [← g₁, ← g₂, hd']
  have he : e₁ = e₂ := ext_getLast_inj e₁ h₁ e₂ h₂ hlast
  subst he
  have hb := List.append_cancel_left (List.append_cancel_right hd')
  exact ⟨String.ext hb, rfl⟩

/-! ## Counting deletion lines -/

theorem ext_count_one : ∀ e ∈ extensions, extensions.count e = 1 := by decide

theorem count_delLine_map_self (b e : String) (he : e ∈ extensions)
    (l : List String) (hl : ∀ x ∈ l, x ∈ extensions) :
    (l.map (fun ext => delLine b ext)).count (delLine b e) = l.count e := by
  induction l with
  | nil => simp
  | cons x xs ih =>
    have hx : x ∈ extensions := hl x (List.mem_cons_self x xs)
    have hxs := ih (fun y hy => hl y (List.mem_cons_of_mem x hy))
    simp only [List.map_cons, List.count_cons, hxs, beq_iff_eq]
    by_cases hxe : x = e
    · subst hxe; simp
    · have h1 : ¬ delLine b x = delLine b e := fun hc =>
        hxe (delLine_inj hx he hc).2
      simp [h1, hxe]

theorem count_delLine_map_other (b b' e : String) (he : e ∈ extensions)
    (hne : b' ≠ b) (l : List String) (hl : ∀ x ∈ l, x ∈ extensions) :
    (l.map (fun ext => delLine b' ext)).count (delLine b e) = 0 := by
  rw [List.count_eq_zero]
  intro hmem
  rcases List.mem_map.mp hmem with ⟨x, hx, hxeq⟩
  exact hne (delLine_inj (hl x hx) he hxeq).1

theorem count_delLine_filter (b e : String) (he : e ∈ extensions)
    (p : String → Bool) :
    ((extensions.filter p).map (fun ext => delLine b ext)).count (delLine b e)
      = if p e then 1 else 0 := by
  rw [count_delLine_map_self b e he (extensions.filter p)
      (fun x hx => (List.mem_filter.mp hx).1)]
  by_cases hp : p e
  · rw [if_pos hp, List.count_filter hp, ext_count_one e he]
  · rw [if_neg hp, List.count_eq_zero]
    intro hmem
    exact hp (List.mem_filter.mp hmem).2

theorem count_fixed_lines (b e exe input batch : String) :
    (["@echo off", timeoutLine].count (delLine b e) = 0)
    ∧ ([startLine exe input, selfDelLine batch].count (delLine b e) = 0) := by
  constructor
  · rw [List.count_eq_zero]
    intro hmem
    rcases List.mem_cons.mp hmem with h | h
    · exact echo_ne_delLine b e h.symm
    · rcases List.mem_cons.mp h with h' | h'
      · exact timeout_ne_delLine b e h'.symm
      · cases h'
  · rw [List.count_eq_zero]
    intro hmem
    rcases List.mem_cons.mp hmem with h | h
    · exact start_ne_delLine exe input b e h.symm
    · rcases List.mem_cons.mp h with h' | h'
      · exact selfDel_ne_delLine batch b e h'.symm
      · cases h'

/-- Deletion lines for the database stem appear in the script exactly when the
corresponding component file exists on disk at generation time. -/
theorem scriptLines_count_db (fsx : String → Bool)
    (S T exe input batch : String) (e : String) (he : e ∈ extensions) :
    (scriptLines fsx S T exe input batch).count (delLine S e)
      = if fsx (S ++ e) then 1 else 0 := by
  unfold scriptLines
  rw [List.count_append, List.count_append, List.count_append,
    (count_fixed_lines S e exe input batch).1,
    (count_fixed_lines S e exe input batch).2,
    count_delLine_filter S e he]
  by_cases hST : S = T
  · rw [if_neg (show ¬ (S ≠ T) from fun h => h hST)]
    simp
  · rw [if_pos hST,
      count_delLine_map_other S T e he (fun hc => hST hc.symm) extensions
        (fun x hx => hx)]
    simp

/-- When the stems differ, a deletion line for the binary stem appears exactly
once per extension, unconditionally. -/
theorem scriptLines_count_bin (fsx : String → Bool)
    (S T exe input batch : String) (e : String) (he : e ∈ extensions)
    (hST : S ≠ T) :
    (scriptLines fsx S T exe input batch).count (delLine T e) = 1 := by
  unfold scriptLines
  rw [List.count_append, List.count_append, List.count_append,
    (count_fixed_lines T e exe input batch).1,
    (count_fixed_lines T e exe input batch).2,
    if_pos hST,
    count_delLine_map_self T e he extensions (fun x hx => hx),
    ext_count_one e he,
    count_delLine_map_other T S e he hST
      (extensions.filter (fun ext => fsx (S ++ ext)))
      (fun x hx => (List.mem_filter.mp hx).1)]

/-! ## Last lines of a script -/

theorem getLast_append_pair {α : Type} (l : List α) (a b : α) :
    (l ++ [a, b]).getLast? = some b := by
  rw [show l ++ [a, b] = (l ++ [a]) ++ [b] by simp, List.getLast?_concat]

theorem dropLast_append_pair {α : Type} (l : List α) (a b : α) :
    (l ++ [a, b]).dropLast = l ++ [a] := by
  rw [show l ++ [a, b] = (l ++ [a]) ++ [b] by simp, List.dropLast_concat]

/-! ## Branch-by-branch execution of `activate` -/

theorem activate_no_input (env : Env) (h : truthy env.input_path = false) :
    activate env = (.err .inputPathUnresolved,
      { noEffects with warnings := ["Cannot determine the input file path!"] }) := by
  simp [activate, h]

theorem activate_missing_file (env : Env)
    (h1 : truthy env.input_path = true)
    (h2 : env.path_exists (env.input_path.getD "") = false) :
    activate env = (.err .inputFileMissing,
      { noEffects with
          warnings := ["File not found: " ++ env.input_path.getD ""] }) := by
  simp [activate, h1, h2]

theorem activate_declined (env : Env)
    (h1 : truthy env.input_path = true)
    (h2 : env.path_exists (env.input_path.getD "") = true)
    (h3 : env.ask_yn_answer ≠ ASKBTN_YES) :
    activate env = (.cancelled, noEffects) := by
  simp [activate, h1, h2, h3]

theorem activate_no_idb (env : Env)
    (h1 : truthy env.input_path = true)
    (h2 : env.path_exists (env.input_path.getD "") = true)
    (h3 : env.ask_yn_answer = ASKBTN_YES)
    (h4 : truthy env.idb_path = false) :
    activate env = (.err .idbPathUnresolved,
      { noEffects with warnings := ["Could not determine IDB path"] }) := by
  simp [activate, h1, h2, h3, h4]

theorem activate_write_failed (env : Env) (k : Nat)
    (h1 : truthy env.input_path = true)
    (h2 : env.path_exists (env.input_path.getD "") = true)
    (h3 : env.ask_yn_answer = ASKBTN_YES)
    (h4 : truthy env.idb_path = true)
    (h5 : env.write_fail_after = some k) :
    activate env = (.err .scriptCreationFailed,
      { warnings := ["Failed to create reload script: " ++ env.err_msg],
        files_written := [(batchPath env, (theScript env).take k)],
        spawned := [], terminated := false }) := by
  simp [activate, h1, h2, h3, h4, h5]

theorem activate_success (env : Env)
    (h1 : truthy env.input_path = true)
    (h2 : env.path_exists (env.input_path.getD "") = true)
    (h3 : env.ask_yn_answer = ASKBTN_YES)
    (h4 : truthy env.idb_path = true)
    (h5 : env.write_fail_after = none)
    (h6 : env.popen_ok = true) :
    activate env = (.exited,
      { warnings := [],
        files_written := [(batchPath env, theScript env)],
        spawned := [{ cmd := [batchPath env], shell := true,
                      creationflags :=
                        if env.os_name_nt then CREATE_NO_WINDOW else 0 }],
        terminated := true }) := by
  simp [activate, h1, h2, h3, h4, h5, h6]

theorem activate_popen_failed (env : Env)
    (h1 : truthy env.input_path = true)
    (h2 : env.path_exists (env.input_path.getD "") = true)
    (h3 : env.ask_yn_answer = ASKBTN_YES)
    (h4 : truthy env.idb_path = true)
    (h5 : env.write_fail_after = none)
    (h6 : env.popen_ok = false) :
    activate env = (.err .scriptCreationFailed,
      { warnings := ["Failed to create reload script: " ++ env.err_msg],
        files_written := [(batchPath env, theScript env)],
        spawned := [], terminated := false }) := by
  simp [activate, h1, h2, h3, h4, h5, h6]

/-- The process exits exactly on the branch that reaches `ida_pro.qexit`;
every other branch neither terminates the host nor spawns a child. -/
theorem activate_cases (env : Env) :
    (activate env).1 = Outcome.exited ∨
    ((activate env).2.terminated = false ∧ (activate env).2.spawned = []) := by
  cases hin : truthy env.input_path with
  | false => rw [activate_no_input env hin]; right; exact ⟨rfl, rfl⟩
  | true =>
    cases hex : env.path_exists (env.input_path.getD "") with
    | false => rw [activate_missing_file env hin hex]; right; exact ⟨rfl, rfl⟩
    | true =>
      by_cases hask : env.ask_yn_answer = ASKBTN_YES
      · cases hidb : truthy env.idb_path with
        | false =>
          rw [activate_no_idb env hin hex hask hidb]; right; exact ⟨rfl, rfl⟩
        | true =>
          cases hw : env.write_fail_after with
          | some k =>
            rw [activate_write_failed env k hin hex hask hidb hw]
            right; exact ⟨rfl, rfl⟩
          | none =>
            cases hp : env.popen_ok with
            | false =>
              rw [activate_popen_failed env hin hex hask hidb hw hp]
              right; exact ⟨rfl, rfl⟩
            | true =>
              rw [activate_success env hin hex hask hidb hw hp]; left; rfl
      · rw [activate_declined env hin hex hask]; right; exact ⟨rfl, rfl⟩

/-! ## Shapes of the individual command lines -/

theorem delLine_shape (b e : String) :
    ∃ rest, delLine b e = "del /F /Q " ++ rest := by
  refine ⟨"\"" ++ b ++ e ++ "\" 2>nul", ?_⟩
  apply String.ext
  rw [delLine_data]
  simp [String.data_append, List.append_assoc,
    show ("del /F /Q \"" : String).data
      = ("del /F /Q " : String).data ++ ("\"" : String).data from by decide]

theorem selfDelLine_shape (p : String) :
    ∃ rest, selfDelLine p = "del /F /Q " ++ rest := by
  refine ⟨"\"" ++ p ++ "\"", ?_⟩
  apply String.ext
  rw [selfDelLine_data]
  simp [String.data_append, List.append_assoc,
    show ("del /F /Q \"" : String).data
      = ("del /F /Q " : String).data ++ ("\"" : String).data from by decide]

theorem startLine_shape (exe input : String) :
    ∃ rest, startLine exe input = "start " ++ rest := by
  refine ⟨"\"\" \"" ++ exe ++ "\" -A -c \"" ++ input ++ "\"", ?_⟩
  apply String.ext
  rw [startLine_data]
  simp [String.data_append, List.append_assoc,
    show ("start \"\" \"" : String).data
      = ("start " : String).data ++ ("\"\" \"" : String).data from by decide]

/-! ## The claims -/

/-- Claim C1: whenever `activate` fails at any step before the
launch-and-terminate point — input-path resolution, existence check,
database-path resolution, or script generation — the operation aborts before
process termination: `ida_pro.qexit` does not run and no child process is
spawned, so the current session is left intact. -/
theorem C1_error_no_termination (env : Env) (e : ReloadError)
    (h : (activate env).1 = Outcome.err e) :
    (activate env).2.terminated = false ∧ (activate env).2.spawned = [] := by
  rcases activate_cases env with hex | hok
  · rw [h] at hex; simp at hex
  · exact hok

/-- Witness for C1: in the session with no resolvable input path, `activate`
fails and the host is not terminated. -/
theorem C1_witness :
    (activate envNoInput).1 = Outcome.err ReloadError.inputPathUnresolved ∧
    ((activate envNoInput).2.terminated = false ∧
      (activate envNoInput).2.spawned = []) :=
  ⟨by decide,
   C1_error_no_termination envNoInput ReloadError.inputPathUnresolved
     (by decide)⟩

/-- Claim C2 counterexample: in `envFresh` the database stem equals the
binary stem, yet the generated script contains no deletion command for the
extension `.id0` at all — because `/tmp/sample.id0` does not exist on disk —
rather than exactly one deletion command per extension of the fixed set. -/
theorem C2_counterexample :
    dbStem envFresh = binStem envFresh ∧
    (activate envFresh).2.files_written
      = [(batchPath envFresh, theScript envFresh)] ∧
    ¬ (∀ e ∈ extensions,
        (theScript envFresh).count (delLine (dbStem envFresh) e) = 1) := by
  decide

/-- Claim C2 (amended): a deletion command for the database stem plus an
extension of the fixed set appears in the generated script exactly when that
component file exists on disk at generation time (once if it exists, zero
times otherwise); when the two stems differ, a deletion command for the
binary stem appears exactly once per extension, unconditionally. -/
theorem C2_deletion_line_counts (env : Env) (e : String)
    (he : e ∈ extensions) :
    ((theScript env).count (delLine (dbStem env) e)
      = if env.path_exists (dbStem env ++ e) then 1 else 0)
    ∧ (dbStem env ≠ binStem env →
        (theScript env).count (delLine (binStem env) e) = 1) :=
  ⟨scriptLines_count_db env.path_exists (dbStem env) (binStem env)
      env.ida_exe (env.input_path.getD "") (batchPath env) e he,
   fun hST =>
     scriptLines_count_bin env.path_exists (dbStem env) (binStem env)
       env.ida_exe (env.input_path.getD "") (batchPath env) e he hST⟩

/-- Witness for C2 at `envTwoStems` and extension `.id0`. -/
theorem C2_witness :
    (".id0" ∈ extensions) ∧
    (((theScript envTwoStems).count (delLine (dbStem envTwoStems) ".id0")
        = if envTwoStems.path_exists (dbStem envTwoStems ++ ".id0")
          then 1 else 0)
      ∧ (dbStem envTwoStems ≠ binStem envTwoStems →
          (theScript envTwoStems).count
            (delLine (binStem envTwoStems) ".id0") = 1)) :=
  ⟨by decide, C2_deletion_line_counts envTwoStems ".id0" (by decide)⟩

/-- Claim C3 counterexample: in `envDiskFull` the write of the script fails
after one line, `activate` reports the failure and spawns nothing — yet a
non-empty, partially-written script file remains on disk, so it is false
that either the full script is written and launched or no script file
remains. -/
theorem C3_counterexample :
    (activate envDiskFull).1 = Outcome.err ReloadError.scriptCreationFailed ∧
    (activate envDiskFull).2.spawned = [] ∧
    (activate envDiskFull).2.terminated = false ∧
    (activate envDiskFull).2.files_written
      = [(batchPath envDiskFull, ["@echo off"])] ∧
    (activate envDiskFull).2.files_written ≠ [] ∧
    (activate envDiskFull).2.files_written
      ≠ [(batchPath envDiskFull, theScript envDiskFull)] := by
  decide

/-- Claim C3 (amended): a failure while writing the script is caught and
reported to the user; no child process is spawned and the host process is not
terminated, but the partially-written script — the first `k` lines of the
full script — is left on disk: the plugin performs no cleanup of it. -/
theorem C3_write_failure_leaves_truncated_script (env : Env) (k : Nat)
    (h1 : truthy env.input_path = true)
    (h2 : env.path_exists (env.input_path.getD "") = true)
    (h3 : env.ask_yn_answer = ASKBTN_YES)
    (h4 : truthy env.idb_path = true)
    (h5 : env.write_fail_after = some k) :
    (activate env).1 = Outcome.err ReloadError.scriptCreationFailed ∧
    (activate env).2.terminated = false ∧
    (activate env).2.spawned = [] ∧
    (activate env).2.files_written
      = [(batchPath env, (theScript env).take k)] ∧
    (activate env).2.warnings
      = ["Failed to create reload script: " ++ env.err_msg] := by
  rw [activate_write_failed env k h1 h2 h3 h4 h5]
  exact ⟨rfl, rfl, rfl, rfl, rfl⟩

/-- Witness for C3 (amended) at `envDiskFull` with the failure after one
line. -/
theorem C3_witness :
    (truthy envDiskFull.input_path = true ∧
     envDiskFull.path_exists (envDiskFull.input_path.getD "") = true ∧
     envDiskFull.ask_yn_answer = ASKBTN_YES ∧
     truthy envDiskFull.idb_path = true ∧
     envDiskFull.write_fail_after = some 1) ∧
    ((activate envDiskFull).1
        = Outcome.err ReloadError.scriptCreationFailed ∧
     (activate envDiskFull).2.terminated = false ∧
     (activate envDiskFull).2.spawned = [] ∧
     (activate envDiskFull).2.files_written
        = [(batchPath envDiskFull, (theScript envDiskFull).take 1)] ∧
     (activate envDiskFull).2.warnings
        = ["Failed to create reload script: " ++ envDiskFull.err_msg]) :=
  ⟨⟨by decide, by decide, by decide, by decide, by decide⟩,
   C3_write_failure_leaves_truncated_script envDiskFull 1
     (by decide) (by decide) (by decide) (by decide) (by decide)⟩

/-- Claim C4: when the user declines the confirmation prompt, `activate`
returns the cancelled result (return value 1) and performs no side effects:
no file is written, no child process is spawned, no warning is raised, and
the host process keeps running. -/
theorem C4_decline_noop (env : Env)
    (h1 : truthy env.input_path = true)
    (h2 : env.path_exists (env.input_path.getD "") = true)
    (h3 : env.ask_yn_answer ≠ ASKBTN_YES) :
    (activate env).1 = Outcome.cancelled ∧
    retCode (activate env).1 = some 1 ∧
    (activate env).2.files_written = [] ∧
    (activate env).2.spawned = [] ∧
    (activate env).2.terminated = false := by
  rw [activate_declined env h1 h2 h3]
  exact ⟨rfl, rfl, rfl, rfl, rfl⟩

/-- Witness for C4: declining in the healthy session `envDecline`. -/
theorem C4_witness :
    (truthy envDecline.input_path = true ∧
     envDecline.path_exists (envDecline.input_path.getD "") = true ∧
     envDecline.ask_yn_answer ≠ ASKBTN_YES) ∧
    ((activate envDecline).1 = Outcome.cancelled ∧
     retCode (activate envDecline).1 = some 1 ∧
     (activate envDecline).2.files_written = [] ∧
     (activate envDecline).2.spawned = [] ∧
     (activate envDecline).2.terminated = false) :=
  ⟨⟨by decide, by decide, by decide⟩,
   C4_decline_noop envDecline (by decide) (by decide) (by decide)⟩

/-- Claim C5 counterexample: in `envTwoStems` the script that `activate`
writes does not start with the startup delay: its first command line is the
echo-suppression command `@echo off`, which precedes the delay. -/
theorem C5_counterexample :
    (activate envTwoStems).2.files_written
      = [(batchPath envTwoStems, theScript envTwoStems)] ∧
    (theScript envTwoStems).head? = some "@echo off" ∧
    (theScript envTwoStems).head? ≠ some timeoutLine ∧
    "@echo off" ≠ timeoutLine := by
  decide

/-- Claim C5 (amended): the script is written to the path formed from the
database stem and the suffix `_reload.bat`, and its lines appear in exactly
this order: an echo-suppression line first, immediately followed by the
startup delay, then the file-deletion commands, then the relaunch command,
and the self-deletion command last. -/
theorem C5_script_layout (env : Env)
    (h1 : truthy env.input_path = true)
    (h2 : env.path_exists (env.input_path.getD "") = true)
    (h3 : env.ask_yn_answer = ASKBTN_YES)
    (h4 : truthy env.idb_path = true)
    (h5 : env.write_fail_after = none)
    (h6 : env.popen_ok = true) :
    ∃ dels,
      (activate env).2.files_written
        = [(dbStem env ++ "_reload.bat",
            "@echo off" :: timeoutLine ::
              (dels ++ [startLine env.ida_exe (env.input_path.getD ""),
                        selfDelLine (batchPath env)]))] ∧
      ∀ d ∈ dels, ∃ rest, d = "del /F /Q " ++ rest := by
  refine ⟨(extensions.filter
        (fun ext => env.path_exists (dbStem env ++ ext))).map
          (fun ext => delLine (dbStem env) ext)
      ++ (if dbStem env ≠ binStem env then
            extensions.map (fun ext => delLine (binStem env) ext)
          else []), ?_, ?_⟩
  · rw [activate_success env h1 h2 h3 h4 h5 h6]
    simp [theScript, scriptLines, batchPath, List.append_assoc]
  · intro d hd
    rcases List.mem_append.mp hd with hmem | hmem
    · rcases List.mem_map.mp hmem with ⟨x, _, hxeq⟩
      rw [← hxeq]
      exact delLine_shape (dbStem env) x
    · by_cases hST : dbStem env ≠ binStem env
      · rw [if_pos hST] at hmem
        rcases List.mem_map.mp hmem with ⟨x, _, hxeq⟩
        rw [← hxeq]
        exact delLine_shape (binStem env) x
      · rw [if_neg hST] at hmem; cases hmem

/-- Witness for C5 (amended) at `envTwoStems`. -/
theorem C5_witness :
    (truthy envTwoStems.input_path = true ∧
     envTwoStems.path_exists (envTwoStems.input_path.getD "") = true ∧
     envTwoStems.ask_yn_answer = ASKBTN_YES ∧
     truthy envTwoStems.idb_path = true ∧
     envTwoStems.write_fail_after = none ∧
     envTwoStems.popen_ok = true) ∧
    (∃ dels,
      (activate envTwoStems).2.files_written
        = [(dbStem envTwoStems ++ "_reload.bat",
            "@echo off" :: timeoutLine ::
              (dels ++ [startLine envTwoStems.ida_exe
                          (envTwoStems.input_path.getD ""),
                        selfDelLine (batchPath envTwoStems)]))] ∧
      ∀ d ∈ dels, ∃ rest, d = "del /F /Q " ++ rest) :=
  ⟨⟨by decide, by decide, by decide, by decide, by decide, by decide⟩,
   C5_script_layout envTwoStems
     (by decide) (by decide) (by decide) (by decide) (by decide) (by decide)⟩

/-- Claim C6: the relaunch command of the generated script — its
second-to-last line — references the running process's own executable
(`sys.executable`) and the resolved input binary path, with the automatic and
non-interactive analysis flags `-A -c` between them, and the script's final
line deletes the script file itself. -/
theorem C6_relaunch_and_self_delete (env : Env)
    (h1 : truthy env.input_path = true)
    (h2 : env.path_exists (env.input_path.getD "") = true)
    (h3 : env.ask_yn_answer = ASKBTN_YES)
    (h4 : truthy env.idb_path = true)
    (h5 : env.write_fail_after = none)
    (h6 : env.popen_ok = true) :
    (activate env).2.files_written = [(batchPath env, theScript env)] ∧
    (theScript env).getLast?
      = some ("del /F /Q \"" ++ batchPath env ++ "\"") ∧
    (theScript env).dropLast.getLast?
      = some ("start \"\" \"" ++ env.ida_exe ++ "\" -A -c \""
          ++ env.input_path.getD "" ++ "\"") := by
  refine ⟨?_, ?_, ?_⟩
  · rw [activate_success env h1 h2 h3 h4 h5 h6]
  · show (scriptLines env.path_exists (dbStem env) (binStem env) env.ida_exe
      (env.input_path.getD "") (batchPath env)).getLast? = _
    unfold scriptLines
    exact getLast_append_pair _ _ _
  · show ((scriptLines env.path_exists (dbStem env) (binStem env) env.ida_exe
      (env.input_path.getD "") (batchPath env)).dropLast).getLast? = _
    unfold scriptLines
    rw [dropLast_append_pair, List.getLast?_concat]
    rfl

/-- Witness for C6 at `envTwoStems`. -/
theorem C6_witness :
    (truthy envTwoStems.input_path = true ∧
     envTwoStems.path_exists (envTwoStems.input_path.getD "") = true ∧
     envTwoStems.ask_yn_answer = ASKBTN_YES ∧
     truthy envTwoStems.idb_path = true ∧
     envTwoStems.write_fail_after = none ∧
     envTwoStems.popen_ok = true) ∧
    ((activate envTwoStems).2.files_written
        = [(batchPath envTwoStems, theScript envTwoStems)] ∧
     (theScript envTwoStems).getLast?
        = some ("del /F /Q \"" ++ batchPath envTwoStems ++ "\"") ∧
     (theScript envTwoStems).dropLast.getLast?
        = some ("start \"\" \"" ++ envTwoStems.ida_exe ++ "\" -A -c \""
            ++ envTwoStems.input_path.getD "" ++ "\"")) :=
  ⟨⟨by decide, by decide, by decide, by decide, by decide, by decide⟩,
   C6_relaunch_and_self_delete envTwoStems
     (by decide) (by decide) (by decide) (by decide) (by decide) (by decide)⟩

/-- Claim C7: when the host cannot supply a non-empty input binary path,
`activate` fails with the input-path resolution error (a
`PathResolutionError` of the spec's taxonomy, return value 0), reports it to
the user through a warning dialog, performs no side effects, and the host
process keeps running. -/
theorem C7_no_input_path (env : Env) (h : truthy env.input_path = false) :
    (activate env).1 = Outcome.err ReloadError.inputPathUnresolved ∧
    isPathResolutionError ReloadError.inputPathUnresolved = true ∧
    retCode (activate env).1 = some 0 ∧
    (activate env).2.warnings = ["Cannot determine the input file path!"] ∧
    (activate env).2.files_written = [] ∧
    (activate env).2.spawned = [] ∧
    (activate env).2.terminated = false := by
  rw [activate_no_input env h]
  exact ⟨rfl, rfl, rfl, rfl, rfl, rfl, rfl⟩

/-- Witness for C7 at `envNoInput`. -/
theorem C7_witness :
    (truthy envNoInput.input_path = false) ∧
    ((activate envNoInput).1 = Outcome.err ReloadError.inputPathUnresolved ∧
     isPathResolutionError ReloadError.inputPathUnresolved = true ∧
     retCode (activate envNoInput).1 = some 0 ∧
     (activate envNoInput).2.warnings
        = ["Cannot determine the input file path!"] ∧
     (activate envNoInput).2.files_written = [] ∧
     (activate envNoInput).2.spawned = [] ∧
     (activate envNoInput).2.terminated = false) :=
  ⟨by decide, C7_no_input_path envNoInput (by decide)⟩

/-- Claim C8: when the resolved input binary path does not refer to an
existing file on disk, `activate` fails with the missing-file error (the
spec's `MissingFileError`, return value 0), reports it to the user, creates
no file and spawns nothing, and the host process keeps running. -/
theorem C8_missing_input_file (env : Env)
    (h1 : truthy env.input_path = true)
    (h2 : env.path_exists (env.input_path.getD "") = false) :
    (activate env).1 = Outcome.err ReloadError.inputFileMissing ∧
    isMissingFileError ReloadError.inputFileMissing = true ∧
    retCode (activate env).1 = some 0 ∧
    (activate env).2.warnings
      = ["File not found: " ++ env.input_path.getD ""] ∧
    (activate env).2.files_written = [] ∧
    (activate env).2.spawned = [] ∧
    (activate env).2.terminated = false := by
  rw [activate_missing_file env h1 h2]
  exact ⟨rfl, rfl, rfl, rfl, rfl, rfl, rfl⟩

/-- Witness for C8 at `envGone`. -/
theorem C8_witness :
    (truthy envGone.input_path = true ∧
     envGone.path_exists (envGone.input_path.getD "") = false) ∧
    ((activate envGone).1 = Outcome.err ReloadError.inputFileMissing ∧
     isMissingFileError ReloadError.inputFileMissing = true ∧
     retCode (activate envGone).1 = some 0 ∧
     (activate envGone).2.warnings
        = ["File not found: " ++ envGone.input_path.getD ""] ∧
     (activate envGone).2.files_written = [] ∧
     (activate envGone).2.spawned = [] ∧
     (activate envGone).2.terminated = false) :=
  ⟨⟨by decide, by decide⟩,
   C8_missing_input_file envGone (by decide) (by decide)⟩

/-- Claim C9: when the user confirms but the database path cannot be
resolved, `activate` fails with the IDB-path resolution error (a
`PathResolutionError` of the spec's taxonomy, return value 0), reports it to
the user, takes no side effects, and does not terminate the host process. -/
theorem C9_no_idb_path (env : Env)
    (h1 : truthy env.input_path = true)
    (h2 : env.path_exists (env.input_path.getD "") = true)
    (h3 : env.ask_yn_answer = ASKBTN_YES)
    (h4 : truthy env.idb_path = false) :
    (activate env).1 = Outcome.err ReloadError.idbPathUnresolved ∧
    isPathResolutionError ReloadError.idbPathUnresolved = true ∧
    retCode (activate env).1 = some 0 ∧
    (activate env).2.warnings = ["Could not determine IDB path"] ∧
    (activate env).2.files_written = [] ∧
    (activate env).2.spawned = [] ∧
    (activate env).2.terminated = false := by
  rw [activate_no_idb env h1 h2 h3 h4]
  exact ⟨rfl, rfl, rfl, rfl, rfl, rfl, rfl⟩

/-- Witness for C9 at `envNoIdb`. -/
theorem C9_witness :
    (truthy envNoIdb.input_path = true ∧
     envNoIdb.path_exists (envNoIdb.input_path.getD "") = true ∧
     envNoIdb.ask_yn_answer = ASKBTN_YES ∧
     truthy envNoIdb.idb_path = false) ∧
    ((activate envNoIdb).1 = Outcome.err ReloadError.idbPathUnresolved ∧
     isPathResolutionError ReloadError.idbPathUnresolved = true ∧
     retCode (activate envNoIdb).1 = some 0 ∧
     (activate envNoIdb).2.warnings = ["Could not determine IDB path"] ∧
     (activate envNoIdb).2.files_written = [] ∧
     (activate envNoIdb).2.spawned = [] ∧
     (activate envNoIdb).2.terminated = false) :=
  ⟨⟨by decide, by decide, by decide, by decide⟩,
   C9_no_idb_path envNoIdb (by decide) (by decide) (by decide) (by decide)⟩

/-- Claim C10: on every platform the generated script is the same Windows
batch script: its path ends in `_reload.bat`, its first line is `@echo off`,
and every one of its lines is a Windows batch command — `@echo off`, the
`timeout` delay, a `del /F /Q` deletion, or a `start` relaunch.  Flipping
the platform flag changes neither the outcome, the written files, nor the
spawned command; only the console-window-suppression `creationflags` of the
spawned child depends on the platform. -/
theorem C10_batch_on_all_platforms (env : Env)
    (h1 : truthy env.input_path = true)
    (h2 : env.path_exists (env.input_path.getD "") = true)
    (h3 : env.ask_yn_answer = ASKBTN_YES)
    (h4 : truthy env.idb_path = true)
    (h5 : env.write_fail_after = none)
    (h6 : env.popen_ok = true) :
    (activate { env with os_name_nt := true }).1
      = (activate { env with os_name_nt := false }).1 ∧
    (activate { env with os_name_nt := true }).2.files_written
      = (activate { env with os_name_nt := false }).2.files_written ∧
    ((activate { env with os_name_nt := true }).2.spawned.map Spawn.cmd)
      = ((activate { env with os_name_nt := false }).2.spawned.map
          Spawn.cmd) ∧
    ((activate { env with os_name_nt := true }).2.spawned.map
        Spawn.creationflags) = [CREATE_NO_WINDOW] ∧
    ((activate { env with os_name_nt := false }).2.spawned.map
        Spawn.creationflags) = [0] ∧
    (∃ stem, batchPath env = stem ++ "_reload.bat") ∧
    (activate env).2.files_written = [(batchPath env, theScript env)] ∧
    (theScript env).head? = some "@echo off" ∧
    (∀ l ∈ theScript env,
      l = "@echo off" ∨ l = "timeout /t 1 /nobreak >nul" ∨
      (∃ rest, l = "del /F /Q " ++ rest) ∨
      (∃ rest, l = "start " ++ rest)) := by
  have ht := activate_success { env with os_name_nt := true }
    h1 h2 h3 h4 h5 h6
  have hf := activate_success { env with os_name_nt := false }
    h1 h2 h3 h4 h5 h6
  refine ⟨by rw [ht, hf], by rw [ht, hf]; rfl, by rw [ht, hf]; rfl,
    by rw [ht]; rfl, by rw [hf]; rfl, ⟨dbStem env, rfl⟩,
    by rw [activate_success env h1 h2 h3 h4 h5 h6], rfl, ?_⟩
  intro l hl
  simp only [theScript, scriptLines] at hl
  rcases List.mem_append.mp hl with hl1 | hl2
  · rcases List.mem_append.mp hl1 with hl3 | hl4
    · rcases List.mem_append.mp hl3 with hl5 | hl6
      · rcases List.mem_cons.mp hl5 with h | h
        · left; exact h
        · rcases List.mem_cons.mp h with h' | h'
          · right; left; exact h'
          · cases h'
      · right; right; left
        rcases List.mem_map.mp hl6 with ⟨x, _, hxeq⟩
        rw [← hxeq]
        exact delLine_shape (dbStem env) x
    · right; right; left
      by_cases hST : dbStem env ≠ binStem env
      · rw [if_pos hST] at hl4
        rcases List.mem_map.mp hl4 with ⟨x, _, hxeq⟩
        rw [← hxeq]
        exact delLine_shape (binStem env) x
      · rw [if_neg hST] at hl4; cases hl4
  · rcases List.mem_cons.mp hl2 with h | h
    · right; right; right
      rw [h]
      exact startLine_shape env.ida_exe (env.input_path.getD "")
    · rcases List.mem_cons.mp h with h' | h'
      · right; right; left
        rw [h']
        exact selfDelLine_shape (batchPath env)
      · cases h'

/-- Witness for C10 at `envFresh`. -/
theorem C10_witness :
    (truthy envFresh.input_path = true ∧
     envFresh.path_exists (envFresh.input_path.getD "") = true ∧
     envFresh.ask_yn_answer = ASKBTN_YES ∧
     truthy envFresh.idb_path = true ∧
     envFresh.write_fail_after = none ∧
     envFresh.popen_ok = true) ∧
    ((activate { envFresh with os_name_nt := true }).1
        = (activate { envFresh with os_name_nt := false }).1 ∧
     (activate { envFresh with os_name_nt := true }).2.files_written
        = (activate { envFresh with os_name_nt := false }).2.files_written ∧
     ((activate { envFresh with os_name_nt := true }).2.spawned.map
         Spawn.cmd)
        = ((activate { envFresh with os_name_nt := false }).2.spawned.map
            Spawn.cmd) ∧
     ((activate { envFresh with os_name_nt := true }).2.spawned.map
         Spawn.creationflags) = [CREATE_NO_WINDOW] ∧
     ((activate { envFresh with os_name_nt := false }).2.spawned.map
         Spawn.creationflags) = [0] ∧
     (∃ stem, batchPath envFresh = stem ++ "_reload.bat") ∧
     (activate envFresh).2.files_written
        = [(batchPath envFresh, theScript envFresh)] ∧
     (theScript envFresh).head? = some "@echo off" ∧
     (∀ l ∈ theScript envFresh,
       l = "@echo off" ∨ l = "timeout /t 1 /nobreak >nul" ∨
       (∃ rest, l = "del /F /Q " ++ rest) ∨
       (∃ rest, l = "start " ++ rest))) :=
  ⟨⟨by decide, by decide, by decide, by decide, by decide, by decide⟩,
   C10_batch_on_all_platforms envFresh
     (by decide) (by decide) (by decide) (by decide) (by decide) (by decide)⟩

end Reload
